import Mathlib

/-!
Shallow embedding of the tourist-spot CRUD server (src/index.js).

The server is an Express application backed by a MongoDB collection of
tourist-spot documents and a Cloudinary asset store.  We model:

* the document collection as an association list `DB := List (Nat × SpotDoc)`
  (Mongo `_id` as `Nat`; `find`, `findOne`, `insertOne`, `updateOne`,
  `deleteOne` with their first-match / modifiedCount / deletedCount
  semantics);
* JSON response bodies as the object literals written in the handlers,
  as raw key-value lists, with JavaScript field lookup where the last
  assignment to a duplicated key wins;
* side effects on the external asset store (cloudinary destroy) and the
  document write as an ordered event trace;
* the JWT issuance handler with the parsed request body as an `Option`
  (a falsy body takes the 401 branch) and the signing library modelled
  as a total function producing a compact nonempty token.
-/

namespace TouristSpotServer

/-- JSON values appearing in response bodies. -/
inductive JsonVal where
  | bool (b : Bool)
  | str (s : String)
  | num (n : Int)
  | arr (elems : List JsonVal)
  | obj (fields : List (String × JsonVal))

/-- Field access on a JavaScript object literal given as its raw list of
key-value assignments: with duplicate keys the last assignment wins,
as in ES2015 object literals. -/
def getField (o : List (String × JsonVal)) (k : String) : Option JsonVal :=
  ((o.filter (fun kv => kv.1 == k)).map (fun kv => kv.2)).getLast?

/-- The `imgHostingInfo` subdocument identifying the externally hosted image. -/
structure ImgHostingInfo where
  url : String
  public_id : String
deriving DecidableEq

/-- A stored tourist-spot document.  Every field may be absent (`none`),
matching the schemaless store: `create` inserts the payload verbatim and
the PATCH handler may overwrite fields with `undefined`. -/
structure SpotDoc where
  spot_name : Option String := none
  country_name : Option String := none
  location : Option String := none
  details : Option String := none
  average_cost : Option Int := none
  seasonality : Option String := none
  travel_time : Option String := none
  total_visitors_per_year : Option Int := none
  userEmail : Option String := none
  imgHostingInfo : Option ImgHostingInfo := none
deriving DecidableEq

/-- The document collection: Mongo `_id` paired with the document. -/
abbrev DB := List (Nat × SpotDoc)

/-- Mongo `collection.findOne` with an `_id` filter: first matching document. -/
def findDoc (db : DB) (id : Nat) : Option SpotDoc :=
  (db.find? (fun e => e.1 == id)).map (fun e => e.2)

/-- Serialization of an optional document field into a JSON object. -/
def optEntry (k : String) (v : Option JsonVal) : List (String × JsonVal) :=
  match v with
  | none => []
  | some j => [(k, j)]

/-- JSON fields of a stored document (present fields only). -/
def docJsonFields (d : SpotDoc) : List (String × JsonVal) :=
  optEntry "spot_name" (d.spot_name.map .str) ++
  optEntry "country_name" (d.country_name.map .str) ++
  optEntry "location" (d.location.map .str) ++
  optEntry "details" (d.details.map .str) ++
  optEntry "average_cost" (d.average_cost.map .num) ++
  optEntry "seasonality" (d.seasonality.map .str) ++
  optEntry "travel_time" (d.travel_time.map .str) ++
  optEntry "total_visitors_per_year" (d.total_visitors_per_year.map .num) ++
  optEntry "userEmail" (d.userEmail.map .str) ++
  optEntry "imgHostingInfo"
    (d.imgHostingInfo.map (fun i =>
      .obj [("url", .str i.url), ("public_id", .str i.public_id)]))

/-- A collection entry serialized the way the handlers return it. -/
def entryJson (e : Nat × SpotDoc) : JsonVal :=
  .obj (("_id", .num (Int.ofNat e.1)) :: docJsonFields e.2)

/-- An HTTP response: status code plus the JSON body object literal. -/
structure HttpResult where
  status : Nat
  body : List (String × JsonVal)

/-- GET /tourist-spot (src/index.js lines 166-176): fetches every document;
an empty array is answered with 404 "No data found". -/
def listAllHandler (db : DB) : HttpResult :=
  let data := db
  if data.length == 0 then
    ⟨404, [("success", .bool false), ("message", .str "No data found")]⟩
  else
    ⟨200, [("success", .bool true), ("data", .arr (data.map entryJson))]⟩

/-- Result of the owner-scoped list handler; `queried` records whether the
collection query (`collection.find(query).toArray()`) was executed. -/
structure OwnerListResult where
  status : Nat
  body : List (String × JsonVal)
  queried : Bool

/-- GET /tourist-spot/user/:email (src/index.js lines 179-220), run after
`verifyToken` attached the decoded identity.  `verifiedUser` is
`req.user?.user`, which is absent when the decoded claim lacks a `user`
field.  The `email == ""` test models the JavaScript falsiness check
`if (!email)` on the path parameter string. -/
def listByOwnerHandler (db : DB) (email : String) (verifiedUser : Option String) :
    OwnerListResult :=
  if email == "" then
    ⟨400, [("success", .bool false),
           ("message", .str "Email parameter is required.")], false⟩
  else if verifiedUser != some email then
    ⟨403, [("success", .bool false), ("message", .str "Access forbidden")], false⟩
  else
    let data := db.filter (fun e => e.2.userEmail == some email)
    if data.length == 0 then
      ⟨404, [("success", .bool false),
             ("message", .str "No data found for the provided email.")], true⟩
    else
      ⟨200, [("success", .bool true), ("data", .arr (data.map entryJson))], true⟩

/-- GET /tourist-spot/:id (src/index.js lines 223-237). -/
def getByIdHandler (db : DB) (id : Nat) : HttpResult :=
  match findDoc db id with
  | none => ⟨404, [("success", .bool false), ("message", .str "No data found")]⟩
  | some d =>
    ⟨200, [("success", .bool true),
           ("data", .obj (("_id", .num (Int.ofNat id)) :: docJsonFields d))]⟩

/-- Fresh `_id` assigned by the store on insertion: strictly greater than
every id already present, so ids are globally unique and never reused. -/
def freshId (db : DB) : Nat :=
  ((db.map (fun e => e.1)).foldr max 0) + 1

/-- Result of the creation handler. -/
structure CreateResult where
  db : DB
  status : Nat
  body : List (String × JsonVal)
  insertedId : Option Nat

/-- POST /tourist-spot (src/index.js lines 240-259): inserts the request
body verbatim.  `insertOk` models whether the store-level `insertOne`
succeeds (its failure branch answers 500). -/
def createHandler (db : DB) (payload : SpotDoc) (insertOk : Bool) : CreateResult :=
  if insertOk then
    let id := freshId db
    ⟨db ++ [(id, payload)], 201,
     [("success", .bool true),
      ("message", .str "Tourist spot added successfully"),
      ("id", .num (Int.ofNat id))],
     some id⟩
  else
    ⟨db, 500,
     [("success", .bool false),
      ("message", .str "Failed to add new tourist spot")],
     none⟩

/-- The update payload destructured from the PATCH request body
(src/index.js lines 292-303). -/
structure UpdatePayload where
  spot_name : Option String := none
  country_name : Option String := none
  location : Option String := none
  details : Option String := none
  average_cost : Option Int := none
  seasonality : Option String := none
  travel_time : Option String := none
  total_visitors_per_year : Option Int := none
  imgHostingInfo : Option ImgHostingInfo := none
  ex_public_id : Option String := none
deriving DecidableEq

/-- JavaScript truthiness of an optional string field: `undefined` and the
empty string are falsy. -/
def truthyStr : Option String → Bool
  | none => false
  | some s => !(s == "")

/-- Application of the `$set` update document built at src/index.js lines
309-325 to a stored document: the eight descriptive fields are always
written (with the payload's value, absent included), `imgHostingInfo` only
when present in the payload, and no other stored field is touched. -/
def applySet (doc : SpotDoc) (p : UpdatePayload) : SpotDoc :=
  { spot_name := p.spot_name
    country_name := p.country_name
    location := p.location
    details := p.details
    average_cost := p.average_cost
    seasonality := p.seasonality
    travel_time := p.travel_time
    total_visitors_per_year := p.total_visitors_per_year
    imgHostingInfo :=
      if p.imgHostingInfo.isSome then p.imgHostingInfo else doc.imgHostingInfo
    userEmail := doc.userEmail }

/-- Replace the document of the first entry whose id matches, as Mongo's
`updateOne` updates only the first matching document. -/
def writeAt : DB → Nat → SpotDoc → DB
  | [], _, _ => []
  | e :: rest, id, d2 =>
    if e.1 == id then (e.1, d2) :: rest else e :: writeAt rest id d2

/-- Mongo `collection.updateOne` with an `_id` filter: returns the new collection
and `modifiedCount`, which is 1 only when a document matched and the
applied `$set` actually changed it. -/
def updateOne (db : DB) (id : Nat) (p : UpdatePayload) : DB × Nat :=
  match findDoc db id with
  | none => (db, 0)
  | some d =>
    let d2 := applySet d p
    (writeAt db id d2, if d2 = d then 0 else 1)

/-- Side effects of a request, in execution order: a cloudinary destroy
call with its public id, and the document write (`updateOne`). -/
inductive Event where
  | destroy (public_id : String)
  | writeUpdate
deriving DecidableEq

/-- Result of the PATCH handler, with the ordered event trace. -/
structure PatchResult where
  db : DB
  status : Nat
  body : List (String × JsonVal)
  trace : List Event

/-- The catch-all error middleware (src/index.js lines 60-65): answers
status 500 with the error's message (or a default when it is falsy). -/
def errorBody (msg : String) : List (String × JsonVal) :=
  [("success", .bool false),
   ("message", .str (if msg == "" then "Internal server error" else msg))]

/-- The tail of the PATCH handler from `collection.updateOne` on
(src/index.js lines 333-344): zero documents modified answers 500. -/
def patchWrite (db : DB) (id : Nat) (p : UpdatePayload) (pre : List Event) :
    PatchResult :=
  let res := updateOne db id p
  if res.2 == 0 then
    ⟨res.1, 500,
     [("success", .bool false),
      ("message", .str "Failed to update this document data")],
     pre ++ [Event.writeUpdate]⟩
  else
    ⟨res.1, 200,
     [("success", .bool true),
      ("message", .str "Tourist spot updated successfully")],
     pre ++ [Event.writeUpdate]⟩

/-- PATCH /tourist-spot/:id (src/index.js lines 289-348).  When
`ex_public_id` is truthy the handler awaits `cloudinary.uploader.destroy`
inside the `try` block before the document write; `destroyErr` models that
call's outcome (`some msg` is a thrown error with message `msg`), and a
thrown error jumps to the `catch`, which forwards it to the error
middleware without ever reaching `updateOne`. -/
def patchHandler (db : DB) (id : Nat) (p : UpdatePayload)
    (destroyErr : Option String) : PatchResult :=
  if truthyStr p.ex_public_id then
    let pid := p.ex_public_id.getD ""
    match destroyErr with
    | some msg => ⟨db, 500, errorBody msg, [Event.destroy pid]⟩
    | none => patchWrite db id p [Event.destroy pid]
  else
    patchWrite db id p []

/-- Result of the DELETE handler, with the ordered event trace. -/
structure DeleteResult where
  db : DB
  status : Nat
  body : List (String × JsonVal)
  trace : List Event

/-- DELETE /tourist-spot/:id (src/index.js lines 262-287): looks the
document up, destroys its cloudinary asset when it carries a truthy
`imgHostingInfo.public_id`, then runs `deleteOne` (first match); zero
documents deleted answers 404.  The 404 body is the object literal
written in the source, where the key `success` is assigned twice. -/
def deleteHandler (db : DB) (id : Nat) : DeleteResult :=
  let mdoc := findDoc db id
  let trace : List Event :=
    match mdoc with
    | some d =>
      match d.imgHostingInfo with
      | some info =>
        if info.public_id == "" then [] else [Event.destroy info.public_id]
      | none => []
    | none => []
  match mdoc with
  | none =>
    ⟨db, 404,
     [("success", .bool false), ("success", .str "No data found to delete")],
     trace⟩
  | some _ =>
    ⟨db.eraseP (fun e => e.1 == id), 200,
     [("success", .bool true),
      ("message", .str "Tourist spot deleted successfully")],
     trace⟩

/-- Result of the token-issuance handler: `cookieSet` records whether the
session cookie was attached to the response. -/
structure JwtResult where
  status : Nat
  cookieSet : Bool
  body : List (String × JsonVal)

/-- The external signing library (`jwt.sign`), modelled as a total
function producing a compact token: header, the payload's keys, and a
signature derived from the secret. -/
def jwtSign (payload : List (String × JsonVal)) (secret : String) : String :=
  "header." ++ String.intercalate "," (payload.map (fun kv => kv.1)) ++
    "." ++ secret

/-- POST /jwt (src/index.js lines 69-97): `user` is the parsed request
body, `none` when it is falsy.  A falsy body answers 401 without setting
a cookie; otherwise the token is signed and transported in the `token`
cookie with a 200 response. -/
def jwtHandler (user : Option (List (String × JsonVal))) (secret : String) :
    JwtResult :=
  match user with
  | none =>
    ⟨401, false,
     [("success", .bool false), ("message", .str "Verified email not found!")]⟩
  | some u =>
    let token := jwtSign u secret
    if token == "" then
      ⟨401, false,
       [("success", .bool false), ("message", .str "jwt token generate failed")]⟩
    else
      ⟨200, true, [("success", .bool true)]⟩

/-- A concrete collection used to settle the PATCH destroy-ordering claim. -/
def c3db : DB := [(1, { spot_name := some "Reef", userEmail := some "a@x.com" })]

/-- A concrete PATCH payload carrying the previous asset id `img123`. -/
def c3payload : UpdatePayload :=
  { spot_name := some "NewReef", ex_public_id := some "img123" }

/-- A concrete stored document for the full-replacement witness. -/
def c5doc : SpotDoc :=
  { spot_name := some "Old", details := some "old details",
    userEmail := some "a@x.com" }

/-- A concrete stored document carrying an image, for the frame witness. -/
def c10doc : SpotDoc :=
  { spot_name := some "Reef", userEmail := some "a@x.com",
    imgHostingInfo := some ⟨"http://img.example/x.png", "img123"⟩ }

/-! Helper lemmas about the store model. -/

/-- Every element of a list of naturals is bounded by its `foldr max 0`. -/
theorem le_foldr_max (l : List Nat) : ∀ x ∈ l, x ≤ l.foldr max 0 := by
  induction l with
  | nil => intro x hx; exact absurd hx (List.not_mem_nil x)
  | cons a t ih =>
    intro x hx
    rw [List.mem_cons] at hx
    rcases hx with rfl | hx
    · exact Nat.le_max_left _ _
    · exact Nat.le_trans (ih x hx) (Nat.le_max_right _ _)

/-- The id assigned on insertion is fresh: no stored entry carries it. -/
theorem freshId_not_mem (db : DB) : ∀ e ∈ db, e.1 ≠ freshId db := by
  intro e he
  have h1 : e.1 ≤ (db.map (fun x => x.1)).foldr max 0 :=
    le_foldr_max _ _ (List.mem_map_of_mem _ he)
  exact Nat.ne_of_lt (Nat.lt_succ_of_le h1)

/-- Appending a document under an id not used in the collection makes it
the document found under that id. -/
theorem findDoc_append_single (db : DB) (id : Nat) (p : SpotDoc)
    (h : ∀ e ∈ db, e.1 ≠ id) : findDoc (db ++ [(id, p)]) id = some p := by
  have h1 : db.find? (fun e => e.1 == id) = none :=
    List.find?_eq_none.mpr (fun e he => by simpa using h e he)
  simp [findDoc, List.find?_append, h1]

/-- Unfolding of `findDoc` on a cons cell. -/
theorem findDoc_cons (e : Nat × SpotDoc) (rest : DB) (id : Nat) :
    findDoc (e :: rest) id = if e.1 == id then some e.2 else findDoc rest id := by
  by_cases he : (e.1 == id) = true
  · simp [findDoc, List.find?_cons_of_pos _ he, he]
  · simp [findDoc, List.find?_cons_of_neg _ he, he]

/-- After `writeAt`, the document found under the written id is the new one. -/
theorem findDoc_writeAt (db : DB) (id : Nat) (d d2 : SpotDoc)
    (h : findDoc db id = some d) :
    findDoc (writeAt db id d2) id = some d2 := by
  induction db with
  | nil => simp [findDoc] at h
  | cons e rest ih =>
    rw [findDoc_cons] at h
    by_cases he : (e.1 == id) = true
    · simp [writeAt, he, findDoc_cons]
    · simp [he] at h
      simp [writeAt, he, findDoc_cons]
      exact ih h

/-- Writing the `$set` image of the document found under an id preserves
every entry's id and userEmail pointwise. -/
theorem writeAt_map_userEmail (db : DB) (id : Nat) (p : UpdatePayload)
    (d : SpotDoc) (h : findDoc db id = some d) :
    (writeAt db id (applySet d p)).map (fun e => (e.1, e.2.userEmail)) =
      db.map (fun e => (e.1, e.2.userEmail)) := by
  induction db with
  | nil => simp [findDoc] at h
  | cons e rest ih =>
    rw [findDoc_cons] at h
    by_cases he : (e.1 == id) = true
    · simp [he] at h
      subst h
      simp [writeAt, he, applySet]
    · simp [he] at h
      simp [writeAt, he]
      exact ih h

/-- The store-level update preserves every entry's id and userEmail. -/
theorem updateOne_map_userEmail (db : DB) (id : Nat) (p : UpdatePayload) :
    ((updateOne db id p).1).map (fun e => (e.1, e.2.userEmail)) =
      db.map (fun e => (e.1, e.2.userEmail)) := by
  cases h : findDoc db id with
  | none => simp [updateOne, h]
  | some d =>
    simp only [updateOne, h]
    exact writeAt_map_userEmail db id p d h

/-- The collection produced by `patchWrite` is the one produced by
`updateOne`, whatever the modified count. -/
theorem patchWrite_db (db : DB) (id : Nat) (p : UpdatePayload)
    (pre : List Event) : (patchWrite db id p pre).db = (updateOne db id p).1 := by
  simp only [patchWrite]
  split <;> rfl

/-- The trace recorded by `patchWrite` appends the document-write event to
the events already performed, whatever the modified count. -/
theorem patchWrite_trace (db : DB) (id : Nat) (p : UpdatePayload)
    (pre : List Event) :
    (patchWrite db id p pre).trace = pre ++ [Event.writeUpdate] := by
  simp only [patchWrite]
  split <;> rfl

/-- The PATCH handler preserves every entry's id and userEmail, on every
control path. -/
theorem patchHandler_map_userEmail (db : DB) (id : Nat) (p : UpdatePayload)
    (err : Option String) :
    ((patchHandler db id p err).db).map (fun e => (e.1, e.2.userEmail)) =
      db.map (fun e => (e.1, e.2.userEmail)) := by
  cases ht : truthyStr p.ex_public_id with
  | true =>
    cases err with
    | some msg => simp [patchHandler, ht]
    | none =>
      have hh : patchHandler db id p none =
          patchWrite db id p [Event.destroy (p.ex_public_id.getD "")] := by
        simp [patchHandler, ht]
      rw [hh, patchWrite_db]
      exact updateOne_map_userEmail db id p
  | false =>
    have hh : patchHandler db id p err = patchWrite db id p [] := by
      simp [patchHandler, ht]
    rw [hh, patchWrite_db]
    exact updateOne_map_userEmail db id p

/-! Claim theorems. -/

/-- C1: every GET /tourist-spot/user/:email request whose verified identity
embeds an email different from the :email path parameter is answered 403
Forbidden and the collection query is never executed, for any two distinct
email strings (the route only matches a nonempty :email segment, hence the
nonemptiness hypothesis on the path parameter). -/
theorem ownerMismatch_forbidden_before_query (db : DB) (email v : String)
    (hne : email ≠ "") (hdiff : v ≠ email) :
    (listByOwnerHandler db email (some v)).status = 403 ∧
    (listByOwnerHandler db email (some v)).queried = false := by
  have h1 : (email == "") = false := beq_eq_false_iff_ne.mpr hne
  have h2 : (some v != some email) = true := by
    simp [bne]
    exact hdiff
  simp [listByOwnerHandler, h1, h2]

/-- C1 witness: concrete distinct emails. -/
theorem ownerMismatch_forbidden_before_query_witness :
    "b@x.com" ≠ "" ∧ "a@x.com" ≠ "b@x.com" ∧
    ((listByOwnerHandler [] "b@x.com" (some "a@x.com")).status = 403 ∧
     (listByOwnerHandler [] "b@x.com" (some "a@x.com")).queried = false) :=
  ⟨by decide, by decide,
   ownerMismatch_forbidden_before_query [] "b@x.com" "a@x.com"
     (by decide) (by decide)⟩

/-- C2: GET /tourist-spot on a collection holding zero documents answers
404 with the NotFound envelope — not a 200 with an empty array — so an
empty collection and a missing resource are indistinguishable on the wire. -/
theorem listAll_empty_notFound :
    listAllHandler [] =
      ⟨404, [("success", JsonVal.bool false),
             ("message", JsonVal.str "No data found")]⟩ := rfl

/-- C3 counterexample: on the concrete PATCH request carrying
ex_public_id img123, when the cloudinary destroy call fails the handler's
trace holds the destroy event only and the document write is never
attempted — the destroy failure aborts the update, refuting the claim's
final conjunct. -/
theorem patch_destroyFailure_aborts_write :
    (patchHandler c3db 1 c3payload (some "cloudinary error")).trace =
      [Event.destroy "img123"] ∧
    Event.writeUpdate ∉ (patchHandler c3db 1 c3payload (some "cloudinary error")).trace ∧
    (patchHandler c3db 1 c3payload (some "cloudinary error")).status = 500 :=
  ⟨rfl, by decide, rfl⟩

/-- C3 amended: for every PATCH request whose body carries a truthy
ex_public_id, the destroy call is invoked with exactly that id, exactly
once, before the document write; if the destroy call fails, the thrown
error reaches the catch block and the document write is never attempted,
so the update is aborted rather than carried out. -/
theorem patch_destroy_once_before_write (db : DB) (id : Nat) (p : UpdatePayload)
    (pid : String) (hp : p.ex_public_id = some pid) (hne : pid ≠ "") :
    (patchHandler db id p none).trace = [Event.destroy pid, Event.writeUpdate] ∧
    ∀ msg, (patchHandler db id p (some msg)).trace = [Event.destroy pid] := by
  have ht2 : truthyStr (some pid) = true := by
    simp [truthyStr, hne]
  constructor
  · have hh : patchHandler db id p none = patchWrite db id p [Event.destroy pid] := by
      simp [patchHandler, hp, ht2]
    rw [hh, patchWrite_trace]
    rfl
  · intro msg
    simp [patchHandler, hp, ht2]

/-- C3 amended witness: the concrete payload carrying img123. -/
theorem patch_destroy_once_before_write_witness :
    c3payload.ex_public_id = some "img123" ∧ "img123" ≠ "" ∧
    ((patchHandler c3db 1 c3payload none).trace =
        [Event.destroy "img123", Event.writeUpdate] ∧
     ∀ msg, (patchHandler c3db 1 c3payload (some msg)).trace =
        [Event.destroy "img123"]) :=
  ⟨rfl, by decide,
   patch_destroy_once_before_write c3db 1 c3payload "img123" rfl (by decide)⟩

/-- C4: a successful create (201 with a fresh id) followed immediately by
getById on that id answers 200 with the inserted document's fields
verbatim. -/
theorem create_then_getById_roundtrip (db : DB) (payload : SpotDoc) :
    (createHandler db payload true).status = 201 ∧
    (createHandler db payload true).insertedId = some (freshId db) ∧
    getByIdHandler (createHandler db payload true).db (freshId db) =
      ⟨200, [("success", JsonVal.bool true),
             ("data", JsonVal.obj
               (("_id", JsonVal.num (Int.ofNat (freshId db))) ::
                  docJsonFields payload))]⟩ := by
  refine ⟨rfl, rfl, ?_⟩
  have h : findDoc (db ++ [(freshId db, payload)]) (freshId db) = some payload :=
    findDoc_append_single db (freshId db) payload (freshId_not_mem db)
  simp [createHandler, getByIdHandler, h]

/-- C5: the PATCH update is a full-field replacement: the stored document
becomes the `$set` image of the old one, and every editable field of the
result equals the payload's value — a field absent from the payload is
overwritten with absent, never kept from the old document. -/
theorem update_is_full_replacement (db : DB) (id : Nat) (p : UpdatePayload)
    (d : SpotDoc) (h : findDoc db id = some d) :
    findDoc (updateOne db id p).1 id = some (applySet d p) ∧
    (applySet d p).spot_name = p.spot_name ∧
    (applySet d p).country_name = p.country_name ∧
    (applySet d p).location = p.location ∧
    (applySet d p).details = p.details ∧
    (applySet d p).average_cost = p.average_cost ∧
    (applySet d p).seasonality = p.seasonality ∧
    (applySet d p).travel_time = p.travel_time ∧
    (applySet d p).total_visitors_per_year = p.total_visitors_per_year := by
  refine ⟨?_, rfl, rfl, rfl, rfl, rfl, rfl, rfl, rfl⟩
  simp only [updateOne, h]
  exact findDoc_writeAt db id d (applySet d p) h

/-- C5 witness: updating a concrete stored document with the empty payload. -/
theorem update_is_full_replacement_witness :
    findDoc [(1, c5doc)] 1 = some c5doc ∧
    findDoc (updateOne [(1, c5doc)] 1 {}).1 1 = some (applySet c5doc {}) :=
  ⟨rfl, (update_is_full_replacement [(1, c5doc)] 1 {} c5doc rfl).1⟩

/-- C6: whenever the store reports zero documents modified — because no
document has the id, or because the new values equal the old ones — the
PATCH handler answers the same 500 WriteFailed response, so the two causes
are indistinguishable in the response. -/
theorem zeroModified_writeFailed (db : DB) (id : Nat) (p : UpdatePayload) :
    (findDoc db id = none → (updateOne db id p).2 = 0) ∧
    (∀ d, findDoc db id = some d → applySet d p = d → (updateOne db id p).2 = 0) ∧
    ((updateOne db id p).2 = 0 →
      (patchHandler db id p none).status = 500 ∧
      (patchHandler db id p none).body =
        [("success", JsonVal.bool false),
         ("message", JsonVal.str "Failed to update this document data")]) := by
  refine ⟨?_, ?_, ?_⟩
  · intro h
    simp [updateOne, h]
  · intro d h heq
    simp [updateOne, h, heq]
  · intro h0
    by_cases ht : truthyStr p.ex_public_id = true
    · constructor <;> simp [patchHandler, ht, patchWrite, h0]
    · constructor <;> simp [patchHandler, ht, patchWrite, h0]

/-- C6 witness: an update aimed at an id absent from the collection. -/
theorem zeroModified_writeFailed_witness :
    findDoc ([] : DB) 1 = none ∧
    (updateOne ([] : DB) 1 {}).2 = 0 ∧
    (patchHandler ([] : DB) 1 {} none).status = 500 :=
  ⟨rfl, (zeroModified_writeFailed [] 1 {}).1 rfl,
   ((zeroModified_writeFailed [] 1 {}).2.2
      ((zeroModified_writeFailed [] 1 {}).1 rfl)).1⟩

/-- C7: POST /jwt with an absent (falsy) body answers 401 without setting
the session cookie; with a present identity claim it answers 200 and sets
the cookie. -/
theorem jwt_absent_401_present_200 (u : List (String × JsonVal)) (secret : String) :
    (jwtHandler none secret).status = 401 ∧
    (jwtHandler none secret).cookieSet = false ∧
    (jwtHandler (some u) secret).status = 200 ∧
    (jwtHandler (some u) secret).cookieSet = true := by
  have hne : jwtSign u secret ≠ "" := by
    intro h
    have hl := congrArg String.length h
    simp only [jwtSign, String.length_append] at hl
    have h7 : ("header." : String).length = 7 := rfl
    have hdot : ("." : String).length = 1 := rfl
    have h0 : ("" : String).length = 0 := rfl
    rw [h7, hdot, h0] at hl
    omega
  have hbeq : (jwtSign u secret == "") = false := beq_eq_false_iff_ne.mpr hne
  exact ⟨rfl, rfl, by simp [jwtHandler, hbeq], by simp [jwtHandler, hbeq]⟩

/-- C8 evaluation at the failing input: DELETE /tourist-spot/:id on a
collection without that id answers 404 with a body whose success field
holds the string value No data found to delete, not a boolean — the 404
object literal assigns the key success twice and the later string
assignment wins in JavaScript. -/
theorem delete_404_success_is_string :
    (deleteHandler [] 1).status = 404 ∧
    getField (deleteHandler [] 1).body "success" =
      some (JsonVal.str "No data found to delete") :=
  ⟨rfl, rfl⟩

/-- C9: the userEmail field set at creation is never changed by any
subsequent operation: the PATCH handler preserves every stored entry's id
and userEmail on every control path, the `$set` application leaves
userEmail untouched, DELETE only removes entries (the surviving collection
is a sublist of the old one), and create only appends a new entry. -/
theorem userEmail_immutable :
    (∀ (db : DB) (id : Nat) (p : UpdatePayload) (err : Option String),
      ((patchHandler db id p err).db).map (fun e => (e.1, e.2.userEmail)) =
        db.map (fun e => (e.1, e.2.userEmail))) ∧
    (∀ (doc : SpotDoc) (p : UpdatePayload),
      (applySet doc p).userEmail = doc.userEmail) ∧
    (∀ (db : DB) (id : Nat), ((deleteHandler db id).db).Sublist db) ∧
    (∀ (db : DB) (payload : SpotDoc),
      (createHandler db payload true).db = db ++ [(freshId db, payload)]) := by
  refine ⟨patchHandler_map_userEmail, fun doc p => rfl, ?_, fun db payload => rfl⟩
  intro db id
  cases h : findDoc db id with
  | none =>
    simp only [deleteHandler, h]
    exact List.Sublist.refl db
  | some d =>
    simp only [deleteHandler, h]
    exact List.eraseP_sublist db

/-- C10: a PATCH whose payload lacks a (truthy) imgHostingInfo leaves the
stored document's imgHostingInfo unchanged — it enters the `$set` only
when present in the payload — while the eight descriptive fields are
written from the payload unconditionally. -/
theorem patch_imgHostingInfo_frame (db : DB) (id : Nat) (p : UpdatePayload)
    (d : SpotDoc) (himg : p.imgHostingInfo = none) (h : findDoc db id = some d) :
    findDoc (updateOne db id p).1 id = some (applySet d p) ∧
    (applySet d p).imgHostingInfo = d.imgHostingInfo ∧
    (applySet d p).spot_name = p.spot_name ∧
    (applySet d p).country_name = p.country_name ∧
    (applySet d p).location = p.location ∧
    (applySet d p).details = p.details ∧
    (applySet d p).average_cost = p.average_cost ∧
    (applySet d p).seasonality = p.seasonality ∧
    (applySet d p).travel_time = p.travel_time ∧
    (applySet d p).total_visitors_per_year = p.total_visitors_per_year := by
  refine ⟨?_, ?_, rfl, rfl, rfl, rfl, rfl, rfl, rfl, rfl⟩
  · simp only [updateOne, h]
    exact findDoc_writeAt db id d (applySet d p) h
  · simp [applySet, himg]

/-- C10 witness: a payload without imgHostingInfo against a stored
document carrying one. -/
theorem patch_imgHostingInfo_frame_witness :
    ({} : UpdatePayload).imgHostingInfo = none ∧
    findDoc [(1, c10doc)] 1 = some c10doc ∧
    (applySet c10doc {}).imgHostingInfo = c10doc.imgHostingInfo :=
  ⟨rfl, rfl, (patch_imgHostingInfo_frame [(1, c10doc)] 1 {} c10doc rfl rfl).2.1⟩

end TouristSpotServer
